import Mathlib

/-!
Verification of the `trace_event.py` import shim (py_trace_event).

The shim attempts `import trace_event_impl` at module load (lines 47-50).
When the import fails the module binds a no-op fallback set of entry points
(lines 78-104).  We embed the fallback branch faithfully, including Python's
call-binding rules for each fallback function's exact signature, because
several of the spec's claims turn on those signatures.
-/

namespace TraceEvent

/-- Python runtime error kinds that the shim's fallback branch can surface:
`typeError` for call-binding failures, `nameError` for a lookup of an unbound
global, `traceException` for the error class the shim intends to raise, and
`other` for arbitrary application-level exceptions used to state propagation
claims. -/
inductive PyErr where
  | typeError
  | nameError
  | traceException
  | other (msg : String)
  deriving DecidableEq, Repr

/-- Python values relevant to the shim: `None`, booleans, strings, and
function objects.  Function objects are drawn from an abstract type `F`
interpreted by an `apply` semantics, which keeps the type positive. -/
inductive PyVal (F : Type) where
  | vnone
  | vbool (b : Bool)
  | vstr (s : String)
  | vfunc (f : F)
  deriving DecidableEq, Repr

/-- The signature of a Python `def`: its positional-or-keyword parameter
names in order, and whether it declares a `**kwargs` catch-all.  None of the
fallback functions use defaults or `*args`, so those are not modelled. -/
structure PySig where
  params : List String
  hasKwargs : Bool

/-- Binding of the keyword arguments of a call, after the positional
arguments have been bound (CPython semantics for signatures without
defaults): a keyword naming a declared parameter binds it unless that
parameter already has a value (`TypeError: multiple values`); an unknown
keyword lands in the `**kwargs` dict when one is declared and is a
`TypeError` otherwise; a repeated key is a `TypeError`. -/
def bindKw {V : Type} (sig : PySig) :
    List (String × V) → List (String × V) → List (String × V) →
      Except PyErr (List (String × V) × List (String × V))
  | bound, extra, [] => .ok (bound, extra)
  | bound, extra, (k, v) :: rest =>
    if k ∈ sig.params then
      if k ∈ bound.map Prod.fst then .error .typeError
      else bindKw sig (bound ++ [(k, v)]) extra rest
    else if sig.hasKwargs then
      if k ∈ extra.map Prod.fst then .error .typeError
      else bindKw sig bound (extra ++ [(k, v)]) rest
    else .error .typeError

/-- Full CPython call binding for a signature without defaults or `*args`:
too many positional arguments is a `TypeError`; positional arguments bind the
leading parameters in order; keywords are bound by `bindKw`; any parameter
left unbound is a `TypeError` (missing required argument).  On success the
bound parameter environment and the `**kwargs` dict are returned. -/
def bindCall {V : Type} (sig : PySig) (args : List V) (kwargs : List (String × V)) :
    Except PyErr (List (String × V) × List (String × V)) :=
  if sig.params.length < args.length then .error .typeError
  else do
    let p ← bindKw sig ((sig.params.take args.length).zip args) [] kwargs
    if sig.params.all (fun q => q ∈ p.1.map Prod.fst) then .ok p
    else .error .typeError

/-- The module-level names bound in the shim when `trace_event_impl` is not
found: the import result (line 50), `trace_can_enable` (line 52), the
fallback branch's `import contextlib` and its eight definitions
(lines 78-104).  `TraceException` is never bound in this branch. -/
def fallbackGlobals : List String :=
  ["trace_event_impl", "trace_can_enable", "contextlib", "trace_enable",
   "trace_disable", "trace_is_enabled", "trace_flush", "trace_begin",
   "trace_end", "trace", "traced"]

/-- Signature of fallback `def trace_enable():` (line 81): no parameters. -/
def trace_enable_sig : PySig := ⟨[], false⟩

/-- Signature of fallback `def trace_disable():` (line 84). -/
def trace_disable_sig : PySig := ⟨[], false⟩

/-- Signature of fallback `def trace_is_enabled():` (line 87). -/
def trace_is_enabled_sig : PySig := ⟨[], false⟩

/-- Signature of fallback `def trace_flush():` (line 90). -/
def trace_flush_sig : PySig := ⟨[], false⟩

/-- Signature of fallback `def trace_begin(self, name, **kwargs):` (line 93):
two positional-or-keyword parameters and a `**kwargs` catch-all. -/
def trace_begin_sig : PySig := ⟨["self", "name"], true⟩

/-- Signature of fallback `def trace_end(self, name):` (line 96): two
positional-or-keyword parameters, no `**kwargs`. -/
def trace_end_sig : PySig := ⟨["self", "name"], false⟩

/-- Signature of fallback `def trace(name, **kwargs):` (line 100). -/
def trace_sig : PySig := ⟨["name"], true⟩

/-- Signature of fallback `def traced(fn):` (line 103). -/
def traced_sig : PySig := ⟨["fn"], false⟩

/-- Fallback `trace_enable` (lines 81-82): after binding the call (it accepts
no arguments), the body executes `raise TraceException(...)`, which first
looks the name `TraceException` up in the module globals; in the fallback
branch that name is unbound, so the lookup itself decides what is raised. -/
def trace_enable {F : Type} (args : List (PyVal F)) (kwargs : List (String × PyVal F)) :
    Except PyErr (PyVal F) := do
  let _ ← bindCall trace_enable_sig args kwargs
  if "TraceException" ∈ fallbackGlobals then .error .traceException
  else .error .nameError

/-- Fallback `trace_disable` (lines 84-85): body is `pass`. -/
def trace_disable {F : Type} (args : List (PyVal F)) (kwargs : List (String × PyVal F)) :
    Except PyErr (PyVal F) := do
  let _ ← bindCall trace_disable_sig args kwargs
  .ok .vnone

/-- Fallback `trace_is_enabled` (lines 87-88): body is `return False`. -/
def trace_is_enabled {F : Type} (args : List (PyVal F)) (kwargs : List (String × PyVal F)) :
    Except PyErr (PyVal F) := do
  let _ ← bindCall trace_is_enabled_sig args kwargs
  .ok (.vbool false)

/-- Fallback `trace_flush` (lines 90-91): body is `pass`. -/
def trace_flush {F : Type} (args : List (PyVal F)) (kwargs : List (String × PyVal F)) :
    Except PyErr (PyVal F) := do
  let _ ← bindCall trace_flush_sig args kwargs
  .ok .vnone

/-- Fallback `trace_begin` (lines 93-94): body is `pass`. -/
def trace_begin {F : Type} (args : List (PyVal F)) (kwargs : List (String × PyVal F)) :
    Except PyErr (PyVal F) := do
  let _ ← bindCall trace_begin_sig args kwargs
  .ok .vnone

/-- Fallback `trace_end` (lines 96-97): body is `pass`. -/
def trace_end {F : Type} (args : List (PyVal F)) (kwargs : List (String × PyVal F)) :
    Except PyErr (PyVal F) := do
  let _ ← bindCall trace_end_sig args kwargs
  .ok .vnone

/-- Fallback `traced` (lines 103-104): body is `return fn`, the bound first
parameter. -/
def traced {F : Type} (args : List (PyVal F)) (kwargs : List (String × PyVal F)) :
    Except PyErr (PyVal F) := do
  let p ← bindCall traced_sig args kwargs
  match p.1.lookup "fn" with
  | some v => .ok v
  | none => .error .nameError

/-- Fallback `trace` (lines 99-101) used as a context manager around a block:
calling `trace` binds its arguments; the `@contextlib.contextmanager`
generator body is a bare `yield` with no try/except, so entering runs no
code, the block executes, and on either normal or exceptional exit nothing
intercepts the block's outcome. -/
def trace {F : Type} {α : Type} (args : List (PyVal F))
    (kwargs : List (String × PyVal F)) (body : Except PyErr α) : Except PyErr α := do
  let _ ← bindCall trace_sig args kwargs
  body

/-- Python call on an arbitrary value: only a function object is callable
(interpreted by `a`); calling `None`, a bool or a string raises
`TypeError: object is not callable`. -/
def callValue {F : Type} (a : F → List (PyVal F) → Except PyErr (PyVal F)) :
    PyVal F → List (PyVal F) → Except PyErr (PyVal F)
  | .vfunc f, args => a f args
  | .vnone, _ => .error .typeError
  | .vbool _, _ => .error .typeError
  | .vstr _, _ => .error .typeError

/-- `trace_can_enable` (lines 52-58): `return trace_event_impl is not None`,
where the module global is the result of the guarded import. -/
def trace_can_enable (impl : Option Unit) : Bool := impl.isSome

/-- The guarded import at lines 47-50: `trace_event_impl` is the module when
found and `None` when the import raised `ImportError`. -/
def importAttempt (b : Bool) : Option Unit := if b then some () else none

/-- Which set of definitions the module binds for its entry points. -/
inductive Binding where
  | fromImpl
  | fallback
  deriving DecidableEq, Repr

/-- The branch at line 60, `if trace_event_impl:`: the module object is
truthy and `None` is falsy, so the real implementations are re-exported
exactly when the import succeeded, and the no-op fallback definitions
(lines 78-104) are bound otherwise. -/
def moduleBindings (impl : Option Unit) : Binding :=
  match impl with
  | some _ => .fromImpl
  | none => .fallback

/-- The no-op entry points of the fallback branch whose repeated invocation
the spec discusses, called with no arguments as in the shim's docstrings. -/
inductive NoopOp where
  | disable
  | flush
  | isEnabled
  deriving DecidableEq, Repr

/-- One fallback call as a transformer of an arbitrary observable state `σ`:
the bodies at lines 84-91 are `pass` / `return False` and touch no module
state, so the state passes through whatever the call returns. -/
def runNoopOp {σ : Type} (op : NoopOp) (s : σ) : Except PyErr (PyVal Unit × σ) :=
  match op with
  | .disable => (trace_disable [] []).map (fun v => (v, s))
  | .flush => (trace_flush [] []).map (fun v => (v, s))
  | .isEnabled => (trace_is_enabled [] []).map (fun v => (v, s))

/-- Runs a sequence of fallback no-op calls, threading the observable state;
stops with the error if any call raises. -/
def runNoopSeq {σ : Type} : List NoopOp → σ → Except PyErr σ
  | [], s => .ok s
  | op :: ops, s => do
    let p ← runNoopOp op s
    runNoopSeq ops p.2

/-- Process state for the import-time availability decision: the shim's
module global `trace_event_impl`, assigned only by the guarded import at
lines 47-50, together with whatever state `E` the tracing engine itself
owns.  No statement of `trace_event.py` after line 50 assigns the global
again, so every tracing operation acts on the engine component alone. -/
structure ProgState (E : Type) where
  trace_event_impl : Option Unit
  engine : E

/-- Runs a sequence of tracing operations; each operation is a transformer
of the engine's own state and leaves the shim's import-time global alone,
faithfully to the shim, whose global is never reassigned after line 50. -/
def runOps {E : Type} (ops : List (E → E)) (s : ProgState E) : ProgState E :=
  { s with engine := ops.foldl (fun e f => f e) s.engine }

/-- Phase of a trace event record, per the spec's data model. -/
inductive Phase where
  | Begin
  | End
  | Instant
  | AsyncBegin
  | AsyncInstant
  | AsyncEnd
  deriving DecidableEq, Repr

/-- Modelled from the spec: the EventRecord data model of section 3 — name,
phase, monotonic timestamp (modelled as a rational; no arithmetic on it is
needed here), thread and process identifiers, and an ordered argument
mapping.  The engine module that builds these records is not under src/. -/
structure EventRecord where
  name : String
  phase : Phase
  timestamp : ℚ
  thread_id : Nat
  process_id : Nat
  args : List (String × String)
  deriving DecidableEq

/-- An interleaving of two sequences: `Interleave a b c` holds when `c`
consists of the elements of `a` and of `b`, each in its original order. -/
inductive Interleave {α : Type} : List α → List α → List α → Prop where
  | nil : Interleave [] [] []
  | left {x : α} {a b c : List α} : Interleave a b c → Interleave (x :: a) b (x :: c)
  | right {y : α} {a b c : List α} : Interleave a b c → Interleave a (y :: b) (y :: c)

/-- Modelled from the spec: FileWriter.write (section 4.5) holds an
exclusive file lock around each flush, so every batch of records reaches the
destination whole, and the file's content is the concatenation of whole
batches in lock-acquisition order.  The writer itself (trace_event_impl) is
not under src/; the shim's docstring at lines 40-44 states the multiprocess
guarantee. -/
def fileContents (merged : List (List EventRecord)) : List EventRecord :=
  merged.flatten

/-- Helper: binding a keyword list whose keys are pairwise distinct, name no
declared parameter, and collide with nothing already in the `**kwargs` dict
succeeds on a signature with a `**kwargs` catch-all, landing every pair in
the dict in order. -/
lemma bindKw_fresh {V : Type} (sig : PySig) (hkw : sig.hasKwargs = true)
    (ks : List (String × V)) :
    ∀ (bound extra : List (String × V)),
      (∀ p ∈ ks.map Prod.fst, p ∉ sig.params) →
      (∀ p ∈ ks.map Prod.fst, p ∉ extra.map Prod.fst) →
      (ks.map Prod.fst).Nodup →
      bindKw sig bound extra ks = .ok (bound, extra ++ ks) := by
  induction ks with
  | nil =>
    intro bound extra _ _ _
    simp [bindKw]
  | cons kv rest ih =>
    intro bound extra h1 h2 h3
    obtain ⟨k, v⟩ := kv
    have hk1 : k ∉ sig.params := h1 k (by simp)
    have hk2 : k ∉ extra.map Prod.fst := h2 k (by simp)
    have h3' : (k :: rest.map Prod.fst).Nodup := by
      rw [List.map_cons] at h3
      exact h3
    have hhd : k ∉ rest.map Prod.fst := (List.nodup_cons.mp h3').1
    have hr1 : ∀ p ∈ rest.map Prod.fst, p ∉ sig.params := by
      intro p hp
      exact h1 p (by simp [hp])
    have hr2 : ∀ p ∈ rest.map Prod.fst, p ∉ (extra ++ [(k, v)]).map Prod.fst := by
      intro p hp
      simp only [List.map_append, List.mem_append, List.map_cons, List.map_nil,
        List.mem_singleton, not_or]
      refine ⟨h2 p (by simp [hp]), ?_⟩
      intro hpk
      exact hhd (hpk ▸ hp)
    have hr3 : (rest.map Prod.fst).Nodup := (List.nodup_cons.mp h3').2
    rw [show bindKw sig bound extra ((k, v) :: rest)
        = (if k ∈ sig.params then
            if k ∈ bound.map Prod.fst then .error .typeError
            else bindKw sig (bound ++ [(k, v)]) extra rest
          else if sig.hasKwargs then
            if k ∈ extra.map Prod.fst then .error .typeError
            else bindKw sig bound (extra ++ [(k, v)]) rest
          else .error .typeError) from rfl]
    rw [if_neg hk1, hkw]
    simp only [if_true]
    rw [if_neg hk2, ih bound (extra ++ [(k, v)]) hr1 hr2 hr3]
    simp

/-- Helper: an interleaving of two batch sequences flattens to a list whose
length is the sum of the two flattened lengths. -/
lemma interleave_flatten_length {α : Type} {a b c : List (List α)}
    (h : Interleave a b c) :
    c.flatten.length = a.flatten.length + b.flatten.length := by
  induction h with
  | nil => simp
  | left _ ih =>
    simp only [List.flatten_cons, List.length_append, ih]
    omega
  | right _ ih =>
    simp only [List.flatten_cons, List.length_append, ih]
    omega

/-- Helper: every element of an interleaving comes from one of the two
interleaved sequences. -/
lemma interleave_mem {α : Type} {a b c : List α} (h : Interleave a b c) :
    ∀ x ∈ c, x ∈ a ∨ x ∈ b := by
  induction h with
  | nil => simp
  | left _ ih =>
    intro x hx
    rcases List.mem_cons.mp hx with hx | hx
    · exact Or.inl (hx ▸ List.mem_cons_self _ _)
    · rcases ih x hx with h | h
      · exact Or.inl (List.mem_cons_of_mem _ h)
      · exact Or.inr h
  | right _ ih =>
    intro x hx
    rcases List.mem_cons.mp hx with hx | hx
    · exact Or.inr (hx ▸ List.mem_cons_self _ _)
    · rcases ih x hx with h | h
      · exact Or.inl h
      · exact Or.inr (List.mem_cons_of_mem _ h)

/-- C1: evaluation at the failing inputs.  With the engine unavailable, the
claim (and the shim's own docstrings) say `trace_begin("something_heavy")`
and `trace_end("read")` are safe no-ops, but the fallback definitions carry
a spurious `self` parameter, so a single-argument call raises
`TypeError: missing required positional argument` in both cases. -/
theorem c1_single_arg_begin_end_type_error :
    trace_begin (F := Unit) [.vstr "something_heavy"] [] = .error .typeError ∧
    trace_end (F := Unit) [.vstr "read"] [] = .error .typeError :=
  ⟨rfl, rfl⟩

/-- C2: evaluation at the failing inputs.  With the engine unavailable,
`trace_enable()` executes `raise TraceException(...)`, but `TraceException`
is unbound in the fallback branch, so the call raises `NameError`, not
`TraceException`; and `trace_enable("myfile.trace")` (the module docstring's
own usage) raises `TypeError`, because the fallback signature takes no
destination argument. -/
theorem c2_enable_unavailable_wrong_exception :
    trace_enable (F := Unit) [] [] = .error .nameError ∧
    trace_enable (F := Unit) [.vstr "myfile.trace"] [] = .error .typeError :=
  ⟨rfl, rfl⟩

/-- C3: in the unavailable-engine state, the callable produced by
`traced(fn)` returns on any argument list exactly what `fn` itself returns
there — including propagating the very same exception when `fn` raises,
since the outcome `a f xs` is arbitrary — and running a block inside the
scoped `trace(name)` context yields the block's own outcome unchanged. -/
theorem c3_traced_and_trace_preserve_outcome {F : Type} {α : Type}
    (a : F → List (PyVal F) → Except PyErr (PyVal F))
    (f : F) (xs : List (PyVal F)) (n : String) (body : Except PyErr α) :
    (traced [PyVal.vfunc f] []).bind (fun w => callValue a w xs) = a f xs ∧
    trace (F := F) [PyVal.vstr n] [] body = body :=
  ⟨rfl, rfl⟩

/-- C4: `trace_can_enable()` returns true exactly when the import of
`trace_event_impl` succeeded, and returns false exactly when the branch at
line 60 bound the no-op fallback definitions. -/
theorem c4_can_enable_iff_impl_found (b : Bool) :
    (trace_can_enable (importAttempt b) = true ↔ b = true) ∧
    (trace_can_enable (importAttempt b) = false
      ↔ moduleBindings (importAttempt b) = .fallback) := by
  cases b <;> decide

/-- C5: in the unavailable-engine state, `trace_disable()` and
`trace_flush()` return normally (`None`), `trace_is_enabled()` always
returns `False`, and any sequence of these calls leaves every observable
state exactly as it was and raises nothing. -/
theorem c5_disable_flush_noop_is_enabled_false {σ : Type} (s : σ) (ops : List NoopOp) :
    trace_disable (F := Unit) [] [] = .ok .vnone ∧
    trace_flush (F := Unit) [] [] = .ok .vnone ∧
    trace_is_enabled (F := Unit) [] [] = .ok (.vbool false) ∧
    runNoopSeq ops s = .ok s := by
  refine ⟨rfl, rfl, rfl, ?_⟩
  induction ops generalizing s with
  | nil => rfl
  | cons op rest ih => cases op <;> exact ih s

/-- C6: evaluation at the failing input.  The claim (and the usage example
in `traced.__doc__`) says `traced("url")` is a wrapping combinator, but the
fallback `traced` returns its argument unchanged, so `traced("url")` is the
string `"url"`, and applying it to a callable raises
`TypeError: str object is not callable`. -/
theorem c6_traced_string_not_combinator :
    traced (F := Unit) [.vstr "url"] [] = .ok (.vstr "url") ∧
    callValue (F := Unit) (fun _ _ => .ok .vnone) (.vstr "url") [.vfunc ()] =
      .error .typeError :=
  ⟨rfl, rfl⟩

/-- C7 counterexample: at name `"x"` and keyword arguments `{foo: None}`,
the claim says both fallback calls return without error, but
`trace_begin("x", foo=None)` raises `TypeError` (its `name` parameter is
left unbound because the single positional argument binds `self`), and
`trace_end("x", foo=None)` raises `TypeError` (`trace_end` declares no
`**kwargs`, so `foo` is an unexpected keyword argument). -/
theorem c7_kwargs_counterexample :
    trace_begin (F := Unit) [.vstr "x"] [("foo", .vnone)] = .error .typeError ∧
    trace_end (F := Unit) [.vstr "x"] [("foo", .vnone)] = .error .typeError :=
  ⟨rfl, rfl⟩

/-- C7 amended: in the no-op fallback, `trace_begin` does declare a
`**kwargs` catch-all, so once both of its positional parameters (the
spurious `self` and `name`) are supplied it silently accepts any keyword
arguments with fresh, pairwise-distinct keys and no-ops; `trace_end`
declares no `**kwargs`, so any keyword argument whose key names no
parameter raises `TypeError`. -/
theorem c7_amended_kwargs_behavior (a b : PyVal Unit)
    (ks : List (String × PyVal Unit)) (k : String) (v : PyVal Unit)
    (h1 : ∀ p ∈ ks.map Prod.fst, p ∉ trace_begin_sig.params)
    (h2 : (ks.map Prod.fst).Nodup)
    (h3 : k ∉ trace_end_sig.params) :
    trace_begin [a, b] ks = .ok .vnone ∧
    trace_end [a, b] [(k, v)] = .error .typeError := by
  constructor
  · have h0 : trace_begin [a, b] ks
        = Except.bind (Except.bind (bindKw trace_begin_sig [("self", a), ("name", b)] [] ks)
            (fun p => if trace_begin_sig.params.all (fun q => q ∈ p.1.map Prod.fst)
                      then Except.ok p else Except.error PyErr.typeError))
            (fun _ => Except.ok PyVal.vnone) := rfl
    rw [h0, bindKw_fresh trace_begin_sig rfl ks [("self", a), ("name", b)] [] h1 (by simp) h2]
    rfl
  · have h0 : trace_end [a, b] [(k, v)]
        = Except.bind (Except.bind (bindKw trace_end_sig [("self", a), ("name", b)] [] [(k, v)])
            (fun p => if trace_end_sig.params.all (fun q => q ∈ p.1.map Prod.fst)
                      then Except.ok p else Except.error PyErr.typeError))
            (fun _ => Except.ok PyVal.vnone) := rfl
    have hb : bindKw trace_end_sig [("self", a), ("name", b)] [] [(k, v)]
        = .error .typeError := by
      rw [show bindKw trace_end_sig [("self", a), ("name", b)] [] [(k, v)]
          = (if k ∈ trace_end_sig.params then
              if k ∈ ([("self", a), ("name", b)] : List (String × PyVal Unit)).map Prod.fst
              then .error .typeError
              else bindKw trace_end_sig ([("self", a), ("name", b)] ++ [(k, v)]) [] []
            else if trace_end_sig.hasKwargs then
              if k ∈ ([] : List (String × PyVal Unit)).map Prod.fst then .error .typeError
              else bindKw trace_end_sig [("self", a), ("name", b)] [(k, v)] []
            else .error .typeError) from rfl]
      rw [if_neg h3]
      rfl
    rw [h0, hb]
    rfl

/-- C7 amended witness: at `self = None`, `name = "x"`, keyword arguments
`{foo: None}` and stray key `"foo"`, the hypotheses hold and the amended
behavior follows. -/
theorem c7_amended_kwargs_behavior_witness :
    ((∀ p ∈ ([("foo", PyVal.vnone)] : List (String × PyVal Unit)).map Prod.fst,
        p ∉ trace_begin_sig.params) ∧
      (([("foo", PyVal.vnone)] : List (String × PyVal Unit)).map Prod.fst).Nodup ∧
      "foo" ∉ trace_end_sig.params) ∧
    (trace_begin (F := Unit) [PyVal.vnone, PyVal.vstr "x"] [("foo", PyVal.vnone)]
        = .ok .vnone ∧
      trace_end (F := Unit) [PyVal.vnone, PyVal.vstr "x"] [("foo", PyVal.vnone)]
        = .error .typeError) :=
  ⟨⟨by decide, by decide, by decide⟩,
    c7_amended_kwargs_behavior PyVal.vnone (PyVal.vstr "x") [("foo", PyVal.vnone)]
      "foo" PyVal.vnone (by decide) (by decide) (by decide)⟩

/-- C8: two processes sharing one destination, each flushing batches
totalling N records under the exclusive file lock, leave a destination
holding exactly 2N records, every one of which is a whole record emitted by
one of the two processes — no record is interleaved or corrupted
mid-record, whatever order the lock was granted in. -/
theorem c8_multiprocess_two_n_records (b1 b2 m : List (List EventRecord)) (N : Nat)
    (h1 : b1.flatten.length = N) (h2 : b2.flatten.length = N)
    (hm : Interleave b1 b2 m) :
    (fileContents m).length = 2 * N ∧
    ∀ r ∈ fileContents m, r ∈ b1.flatten ∨ r ∈ b2.flatten := by
  constructor
  · have h := interleave_flatten_length hm
    simp only [fileContents]
    omega
  · intro r hr
    rcases List.mem_flatten.mp hr with ⟨l, hl, hrl⟩
    rcases interleave_mem hm l hl with h | h
    · exact Or.inl (List.mem_flatten.mpr ⟨l, h, hrl⟩)
    · exact Or.inr (List.mem_flatten.mpr ⟨l, h, hrl⟩)

/-- Concrete record: Begin of event "work" in process 100. -/
def recWorkBegin : EventRecord := ⟨"work", .Begin, 1, 10, 100, []⟩

/-- Concrete record: End of event "work" in process 100. -/
def recWorkEnd : EventRecord := ⟨"work", .End, 2, 10, 100, []⟩

/-- Concrete record: Begin of event "io" in process 200. -/
def recIoBegin : EventRecord := ⟨"io", .Begin, 1, 20, 200, []⟩

/-- Concrete record: End of event "io" in process 200. -/
def recIoEnd : EventRecord := ⟨"io", .End, 3, 20, 200, []⟩

/-- C8 witness: process 100 flushes two one-record batches, process 200 one
two-record batch (N = 2 each); in the interleaved order the destination
holds exactly 4 whole records from the two processes. -/
theorem c8_multiprocess_two_n_records_witness :
    (([[recWorkBegin], [recWorkEnd]] : List (List EventRecord)).flatten.length = 2 ∧
      ([[recIoBegin, recIoEnd]] : List (List EventRecord)).flatten.length = 2 ∧
      Interleave [[recWorkBegin], [recWorkEnd]] [[recIoBegin, recIoEnd]]
        [[recWorkBegin], [recIoBegin, recIoEnd], [recWorkEnd]]) ∧
    ((fileContents [[recWorkBegin], [recIoBegin, recIoEnd], [recWorkEnd]]).length = 2 * 2 ∧
      ∀ r ∈ fileContents [[recWorkBegin], [recIoBegin, recIoEnd], [recWorkEnd]],
        r ∈ ([[recWorkBegin], [recWorkEnd]] : List (List EventRecord)).flatten ∨
        r ∈ ([[recIoBegin, recIoEnd]] : List (List EventRecord)).flatten) :=
  ⟨⟨rfl, rfl, .left (.right (.left .nil))⟩,
    c8_multiprocess_two_n_records [[recWorkBegin], [recWorkEnd]] [[recIoBegin, recIoEnd]]
      [[recWorkBegin], [recIoBegin, recIoEnd], [recWorkEnd]] 2 rfl rfl
      (.left (.right (.left .nil)))⟩

/-- C9: the fallback `traced` is the identity on its argument: for every
value `v`, `traced(v)` returns the very same object `v`, so decorating a
callable in the unavailable-engine state preserves its identity and adds no
wrapper. -/
theorem c9_traced_identity {F : Type} (v : PyVal F) :
    traced [v] [] = .ok v :=
  rfl

/-- C10: availability is fixed by the import at lines 47-50: running any
sequence of tracing operations (each acting on the engine's own state)
never changes what `trace_can_enable` reads, so any two calls, before or
after any operation sequences, return the same boolean. -/
theorem c10_can_enable_deterministic {E : Type} (s : ProgState E)
    (l m : List (E → E)) :
    trace_can_enable (runOps l s).trace_event_impl
      = trace_can_enable s.trace_event_impl ∧
    trace_can_enable (runOps l s).trace_event_impl
      = trace_can_enable (runOps m s).trace_event_impl :=
  ⟨rfl, rfl⟩

end TraceEvent
